import Mathlib

/-!
Verification development for the movie research assistant
(`src/movie_agent.py`, `src/movie_agent_gui.py`).

The Python core is shallowly embedded: every external service call
(generative-text service, catalog service, web search) is modelled by an
explicit argument describing the response the service produced, and each
Python method becomes a Lean function of the same name.  Python string
primitives used by the source (`strip`, `lower`, `replace`, `startswith`,
slicing, the `in` substring test) are embedded as executable `py*` helpers
over `String.data`.
-/

/- ### Python string primitives -/

/-- Whitespace recognised by Python `str.strip()`: space, tab, newline,
carriage return, vertical tab, form feed. -/
def pyIsSpace (c : Char) : Bool :=
  c == ' ' || c == '\t' || c == '\n' || c == '\r' || c == '\x0b' || c == '\x0c'

/-- Embeds Python `str.strip()`: drop leading and trailing whitespace. -/
def pyStrip (s : String) : String :=
  String.mk (((s.data.dropWhile pyIsSpace).reverse.dropWhile pyIsSpace).reverse)

/-- ASCII case folding of one character, as Python `str.lower` acts on the
ASCII letters (the only letters the `movie:` protocol of the source uses). -/
def pyCharLower (c : Char) : Char :=
  if 65 ≤ c.toNat ∧ c.toNat ≤ 90 then Char.ofNat (c.toNat + 32) else c

/-- Embeds Python `str.lower()` (ASCII fragment). -/
def pyLower (s : String) : String := String.mk (s.data.map pyCharLower)

/-- Embeds Python `str.startswith(p)`. -/
def pyStartsWith (p s : String) : Bool := p.data.isPrefixOf s.data

/-- Fuel-indexed worker for `pyRemoveAll`; the fuel bounds the number of
characters still to be scanned, so it never runs out when seeded with the
length of the list. -/
def pyRemoveAllAux (pat : List Char) : Nat → List Char → List Char
  | _, [] => []
  | 0, l => l
  | fuel + 1, c :: rest =>
    if pat ≠ [] ∧ pat.isPrefixOf (c :: rest) then
      pyRemoveAllAux pat fuel (List.drop (pat.length - 1) rest)
    else
      c :: pyRemoveAllAux pat fuel rest

/-- Embeds Python `s.replace(pat, "")` as used by `process_user_query`:
delete every non-overlapping occurrence of `pat`, scanning left to right
(Python returns `s` unchanged when both pattern and replacement are empty). -/
def pyRemoveAll (pat s : String) : String :=
  String.mk (pyRemoveAllAux pat.data s.data.length s.data)

/-- Embeds the Python slice `s[:n]` (first `n` characters). -/
def pyTake (n : Nat) (s : String) : String := String.mk (s.data.take n)

/-- Worker for `pySubstr`: does `needle` occur as a contiguous run in `l`. -/
def substrAux (needle : List Char) : List Char → Bool
  | [] => needle.isEmpty
  | c :: rest => needle.isPrefixOf (c :: rest) || substrAux needle rest

/-- Embeds the Python membership test `needle in s` on strings. -/
def pySubstr (needle s : String) : Bool := substrAux needle.data s.data

/- ### Query classification (`MovieAgent.process_user_query`) -/

/-- Query kind returned by `MovieAgent.process_user_query`: the literal
string `"movie"` or `"general"` in the source. -/
inductive QueryKind where
  | movie
  | general
deriving DecidableEq, Repr

/-- Embeds `MovieAgent.process_user_query`.  The generative-text service
call is modelled by `svcResp`: `.ok text` is a reply whose `response.text`
is `text`, `.error ()` is any exception raised by the call (timeout,
malformed response, service error).  Returns the `(query_type,
refined_query)` pair of the source; note that the except-branch makes the
function total, so no service failure is ever surfaced to the caller. -/
def process_user_query (svcResp : Except Unit String) (query : String) :
    QueryKind × String :=
  match svcResp with
  | .error _ => (QueryKind.movie, query)
  | .ok text =>
    let result := pyLower (pyStrip text)
    if pyStartsWith "movie:" result then
      (QueryKind.movie, pyStrip (pyRemoveAll "movie:" result))
    else
      (QueryKind.general, query)

example : process_user_query (.ok "movie: Inception") "q" = (QueryKind.movie, "inception") := by decide
example : process_user_query (.ok "  General: hi ") "orig q" = (QueryKind.general, "orig q") := by decide
example : process_user_query (.error ()) "orig q" = (QueryKind.movie, "orig q") := by decide
example : process_user_query (.ok "movie: Movie: Impossible") "q" = (QueryKind.movie, "impossible") := by decide

/- ### Catalog data model (TMDB JSON objects read by the source) -/

/-- Search result entry of `GET /search/movie` as the source reads it:
only `id`, `title` and `release_date` are consumed.  `release_date` is
`none` when the key is absent; the source also treats the empty string as
missing (Python truthiness in `movie.get("release_date")`). -/
structure MovieSummary where
  id : Nat
  title : String
  release_date : Option String
deriving DecidableEq, Repr

/-- Entry of `movie_data["videos"]["results"]` as read by `find_trailer`. -/
structure Video where
  site : String
  type : String
  key : String
deriving DecidableEq, Repr

/-- Wrapper for `movie_data["videos"]` (always has a `results` key). -/
structure Videos where
  results : List Video
deriving DecidableEq, Repr

/-- Crew entry of `movie_data["credits"]["crew"]` (`name` and `job` are the
keys the source reads). -/
structure CrewMember where
  name : String
  job : String
deriving DecidableEq, Repr

/-- Cast entry of `movie_data["credits"]["cast"]` (`name` is the only key
the source reads). -/
structure CastMember where
  name : String
deriving DecidableEq, Repr

/-- Wrapper for `movie_data["credits"]`. -/
structure Credits where
  crew : List CrewMember
  cast : List CastMember
deriving DecidableEq, Repr

/-- Genre entry of `movie_data["genres"]` (`name` is the only key read). -/
structure Genre where
  name : String
deriving DecidableEq, Repr

/-- Detail record of `GET /movie/{id}` as the source reads it.  Each field
the source accesses through `dict.get` with a default is an `Option`
(`none` models an absent key).  `vote_average` and `runtime` are only ever
interpolated into display text, so they are carried as their rendered
string form; `budget` and `revenue` are formatted with thousands grouping
and are carried as numbers. -/
structure MovieData where
  title : Option String
  release_date : Option String
  overview : Option String
  vote_average : Option String
  genres : Option (List Genre)
  runtime : Option String
  budget : Option Nat
  revenue : Option Nat
  credits : Option Credits
  videos : Option Videos
  poster_path : Option String
deriving DecidableEq, Repr

/-- Trailer record built by `MovieAgent.find_trailer`: a Python dict with
keys `title`, `url`, `video_id`. -/
structure TrailerInfo where
  title : String
  url : String
  video_id : String
deriving DecidableEq, Repr

/- ### Catalog client (`MovieAgent.search_movie`, `MovieAgent.get_movie_details`) -/

/-- Embeds `MovieAgent.search_movie`.  The catalog HTTP call is modelled by
`svcResp`: `.ok results` is a 200 response whose parsed `data["results"]`
array is `results`; `.error ()` is any `requests.exceptions.RequestException`
(transport failure or non-2xx status via `raise_for_status`).  The source
returns `data["results"][0]` when the array is non-empty and `None`
otherwise, and the except-branch also returns `None`. -/
def search_movie (svcResp : Except Unit (List MovieSummary)) :
    Option MovieSummary :=
  match svcResp with
  | .error _ => none
  | .ok results =>
    match results with
    | [] => none
    | r :: _ => some r

/-- Embeds `MovieAgent.get_movie_details`.  `.ok d` is a 200 response whose
parsed JSON body is `d`; `.error ()` is any `RequestException`, for which
the source returns `None`. -/
def get_movie_details (svcResp : Except Unit MovieData) : Option MovieData :=
  match svcResp with
  | .error _ => none
  | .ok d => some d

/- ### Trailer resolution (`MovieAgent.find_trailer`) -/

/-- Loop over `movie_data["videos"]["results"]` in `find_trailer`: return a
trailer record for the first entry whose `site` is `"YouTube"` and whose
`type` is `"Trailer"`. -/
def firstYouTubeTrailer (movie_title : String) : List Video → Option TrailerInfo
  | [] => none
  | v :: rest =>
    if v.site == "YouTube" && v.type == "Trailer" then
      some { title := movie_title ++ " Official Trailer",
             url := "https://www.youtube.com/watch?v=" ++ v.key,
             video_id := v.key }
    else firstYouTubeTrailer movie_title rest

/-- Metadata tier of `find_trailer`: the guard
`movie_data and "videos" in movie_data and movie_data["videos"]["results"]`
followed by the scan over the video list. -/
def metadata_tier (movie_title : String) (movie_data : Option MovieData) :
    Option TrailerInfo :=
  match movie_data with
  | none => none
  | some md =>
    match md.videos with
    | none => none
    | some vs =>
      if vs.results.isEmpty then none
      else firstYouTubeTrailer movie_title vs.results

/-- Embeds the regular-expression search
`re.search(r"youtube\.com/watch\?v=([^&]+)", href)` on the character list
of `href`: find the leftmost position where the literal
`youtube.com/watch?v=` is followed by at least one character other than
`&`, and return the maximal run of non-`&` characters after the literal
(the capture group). -/
def watchIdSearch : List Char → Option (List Char)
  | [] => none
  | c :: rest =>
    if "youtube.com/watch?v=".data.isPrefixOf (c :: rest) then
      if ((c :: rest).drop "youtube.com/watch?v=".data.length).takeWhile
          (fun a => !(a == '&')) = [] then
        watchIdSearch rest
      else
        some (((c :: rest).drop "youtube.com/watch?v=".data.length).takeWhile
          (fun a => !(a == '&')))
    else watchIdSearch rest

/-- Embeds one iteration of the link loop in `find_trailer`: given the
`href` attribute of an anchor, the guard `"youtube.com/watch" in href`
followed by the regex search; on a match, the trailer record appended to
`youtube_links`. -/
def watch_link_candidate (movie_title href : String) : Option TrailerInfo :=
  if pySubstr "youtube.com/watch" href then
    match watchIdSearch href.data with
    | some vid =>
      some { title := movie_title ++ " Trailer",
             url := "https://www.youtube.com/watch?v=" ++ String.mk vid,
             video_id := String.mk vid }
    | none => none
  else none

/-- Search query string built by the fallback tier of `find_trailer`:
`"<title> official trailer"`, with `" <year>"` appended when a year is
given.  (The source then requests
`https://www.google.com/search?q=<query>+site:youtube.com`.) -/
def trailer_search_query (movie_title : String) (year : Option String) : String :=
  match year with
  | some y => movie_title ++ " official trailer" ++ " " ++ y
  | none => movie_title ++ " official trailer"

/-- Embeds `MovieAgent.find_trailer`.  The web search of the fallback tier
is modelled by `webSearch`: applied to the constructed search query it
yields `.ok hrefs` — the list of `href` attributes of the anchors
BeautifulSoup finds in the result page, in document order — or `.error ()`
for any exception (network failure, HTTP error, parse error), for which the
source returns `None`.  The fallback tier runs only when the metadata tier
returned nothing, and returns `youtube_links[0]` when any link qualified,
else `None`. -/
def find_trailer (movie_title : String) (year : Option String)
    (movie_data : Option MovieData)
    (webSearch : String → Except Unit (List String)) : Option TrailerInfo :=
  match metadata_tier movie_title movie_data with
  | some t => some t
  | none =>
    match webSearch (trailer_search_query movie_title year) with
    | .error _ => none
    | .ok hrefs =>
      let youtube_links := hrefs.filterMap (watch_link_candidate movie_title)
      youtube_links.head?

example :
    find_trailer "Inception" (some "2010")
      (some { title := some "Inception", release_date := none, overview := none,
              vote_average := none, genres := none, runtime := none,
              budget := none, revenue := none, credits := none,
              videos := some ⟨[⟨"Vimeo", "Trailer", "x"⟩, ⟨"YouTube", "Trailer", "abc"⟩]⟩,
              poster_path := none })
      (fun _ => .error ()) =
    some ⟨"Inception Official Trailer", "https://www.youtube.com/watch?v=abc", "abc"⟩ := by
  decide

example :
    find_trailer "Up" none none
      (fun q =>
        if q = "Up official trailer" then
          .ok ["https://x.y/z", "/url?q=https://www.youtube.com/watch?v=k9&w", "https://www.youtube.com/watch?v=m2"]
        else .error ()) =
    some ⟨"Up Trailer", "https://www.youtube.com/watch?v=k9", "k9"⟩ := by
  decide

/- ### Response synthesis (`MovieAgent.generate_movie_response`,
`MovieAgent.generate_general_response`) -/

/-- Worker for `pyThousands`: walk the reversed digit list, inserting a
comma after every third digit that is not the last one. -/
def thousandsRev : List Char → Nat → List Char
  | [], _ => []
  | [c], _ => [c]
  | c :: rest, i =>
    if (i + 1) % 3 == 0 then c :: ',' :: thousandsRev rest (i + 1)
    else c :: thousandsRev rest (i + 1)

/-- Embeds the Python format specifier `{n:,}` on a natural number: decimal
digits grouped in threes by commas. -/
def pyThousands (n : Nat) : String :=
  String.mk ((thousandsRev (Nat.repr n).data.reverse 0).reverse)

example : pyThousands 0 = "0" := by decide
example : pyThousands 1234567 = "1,234,567" := by decide
example : pyThousands 160000000 = "160,000,000" := by decide

/-- Display-ready projection built at the top of
`generate_movie_response` (the local dict `context`): every field is
defaulted, so none is ever absent when synthesis or the fallback template
reads it. -/
structure ResponseContext where
  title : String
  release_date : String
  overview : String
  vote_average : String
  genres : List String
  runtime : String
  budget : Nat
  revenue : Nat
  director : String
  cast : List String
  trailer : String
deriving DecidableEq, Repr

/-- Embeds `MovieAgent._get_director`: name of the first crew member whose
`job` is `"Director"`, else `"Unknown"`. -/
def get_director (movie_data : MovieData) : String :=
  let crew := match movie_data.credits with
    | some c => c.crew
    | none => []
  let directors := (crew.filter (fun m => m.job == "Director")).map CrewMember.name
  match directors with
  | d :: _ => d
  | [] => "Unknown"

/-- Embeds `MovieAgent._get_cast`: names of all cast members, in credit
order. -/
def get_cast (movie_data : MovieData) : List String :=
  let cast := match movie_data.credits with
    | some c => c.cast
    | none => []
  cast.map CastMember.name

/-- Embeds the `context` dict construction at the top of
`MovieAgent.generate_movie_response`. -/
def build_context (movie_data : MovieData) (trailer_info : Option TrailerInfo) :
    ResponseContext :=
  { title := movie_data.title.getD "Unknown"
    release_date := movie_data.release_date.getD "Unknown"
    overview := movie_data.overview.getD "No overview available"
    vote_average := movie_data.vote_average.getD "N/A"
    genres := (movie_data.genres.getD []).map Genre.name
    runtime := movie_data.runtime.getD "Unknown"
    budget := movie_data.budget.getD 0
    revenue := movie_data.revenue.getD 0
    director := get_director movie_data
    cast := get_cast movie_data
    trailer := match trailer_info with
      | some t => t.url
      | none => "Trailer not available" }

/-- Embeds `MovieAgent._create_fallback_response`: the fixed-layout plain
text f-string, including the indentation and trailing double spaces of the
Python triple-quoted literal. -/
def create_fallback_response (c : ResponseContext) : String :=
  "\n        " ++ c.title ++ " (" ++ pyTake 4 c.release_date ++
  ")\n\n        Rating: " ++ c.vote_average ++ "/10  \n        Runtime: " ++
  c.runtime ++ " minutes  \n        Genres: " ++
  String.intercalate ", " c.genres ++ "\n\n        Overview:\n        " ++
  c.overview ++ "\n\n        Cast & Crew:\n        Director: " ++
  c.director ++ "  \n        Starring: " ++
  String.intercalate ", " (c.cast.take 5) ++
  "\n\n        Watch Trailer:\n        " ++ c.trailer ++
  "\n\n        Budget: $" ++ pyThousands c.budget ++
  "  \n        Box Office: $" ++ pyThousands c.revenue ++ "\n        "

/-- Behaviour of one generative-text invocation inside a `generate_*`
method: `streamChunks` are the `chunk.text` fragments the streaming
iterator yields, in arrival order; `streamFails` means the streaming call
raises an exception (after yielding `streamChunks`); `single` is the
outcome of the non-streaming call (`.error ()` is a raised exception). -/
structure GenService where
  streamChunks : List String
  streamFails : Bool
  single : Except Unit String

/-- Embeds `MovieAgent.generate_movie_response`.  `streaming` and
`hasCallback` are the `streaming` flag and whether a `callback` was
supplied.  The callback is effectful, so the model returns, alongside the
string the method returns, the list of fragments passed to the callback in
invocation order (empty when no callback was supplied). -/
def generate_movie_response (svc : GenService) (movie_data : MovieData)
    (trailer_info : Option TrailerInfo) (streaming hasCallback : Bool) :
    String × List String :=
  let context := build_context movie_data trailer_info
  if streaming && hasCallback then
    if svc.streamFails then
      let fallback := create_fallback_response context
      (fallback, svc.streamChunks ++ [fallback])
    else
      (String.join svc.streamChunks, svc.streamChunks)
  else
    match svc.single with
    | .ok t => (t, [])
    | .error _ =>
      let fallback := create_fallback_response context
      (fallback, if hasCallback then [fallback] else [])

/-- Embeds the f-string fallback of `MovieAgent.generate_general_response`. -/
def general_fallback (query : String) : String :=
  "I\x27m sorry, I couldn\x27t process your query: \x27" ++ query ++
  "\x27. Please try asking in a different way."

/-- Embeds `MovieAgent.generate_general_response`, with the same modelling
of streaming, callback and service behaviour as
`generate_movie_response`. -/
def generate_general_response (svc : GenService) (query : String)
    (streaming hasCallback : Bool) : String × List String :=
  if streaming && hasCallback then
    if svc.streamFails then
      let fallback := general_fallback query
      (fallback, svc.streamChunks ++ [fallback])
    else
      (String.join svc.streamChunks, svc.streamChunks)
  else
    match svc.single with
    | .ok t => (t, [])
    | .error _ =>
      let fallback := general_fallback query
      (fallback, if hasCallback then [fallback] else [])

/- ### Orchestrator (`MovieAgentGUI._handle_query` and helpers) -/

/-- Responses of the external services during one orchestrated query. -/
structure Env where
  classifyResp : Except Unit String
  searchResp : Except Unit (List MovieSummary)
  detailsResp : Except Unit MovieData
  webSearch : String → Except Unit (List String)

/-- Externally observable outcome of `MovieAgentGUI._handle_query`: which
synthesis path is invoked and with what arguments, or the terminal
detail-fetch failure (an error status is shown and no synthesis of any
kind runs). -/
inductive Outcome where
  | generalAnswer (query : String)
  | movieAnswer (details : MovieData) (trailer : Option TrailerInfo)
  | detailFetchFailure (movie_title : String)
deriving DecidableEq, Repr

/-- Embeds `MovieAgentGUI._search_movie` (UI updates elided).  Search the
catalog with the query it was given; with no result,
`_handle_movie_not_found` re-enters the general path with that same query;
with a found movie whose detail fetch fails, stop with a failure status;
otherwise resolve the trailer and run movie synthesis. -/
def search_movie_flow (env : Env) (query : String) : Outcome :=
  match search_movie env.searchResp with
  | none => Outcome.generalAnswer query
  | some movie =>
    match get_movie_details env.detailsResp with
    | none => Outcome.detailFetchFailure movie.title
    | some movie_details =>
      let release_year := match movie.release_date with
        | some rd => if rd = "" then none else some (pyTake 4 rd)
        | none => none
      let trailer := find_trailer movie.title release_year (some movie_details)
        env.webSearch
      Outcome.movieAnswer movie_details trailer

/-- Embeds `MovieAgentGUI._handle_query`: classify the query, then run the
movie flow with the refined query, or the general path with the original
query. -/
def handle_query (env : Env) (query : String) : Outcome :=
  match process_user_query env.classifyResp query with
  | (QueryKind.movie, refined_query) => search_movie_flow env refined_query
  | (QueryKind.general, _) => Outcome.generalAnswer query

/- ### Spec-side definition used only to compare against the source -/

/-- Refined movie title as the spec words it for a Movie classification:
the trailing text of the stripped, lowercased service reply after the
leading `movie:` marker, whitespace-stripped.  This definition follows the
spec text, not the source, and exists to be compared with
`process_user_query`. -/
def spec_refined_title (text : String) : String :=
  pyStrip (String.mk ((pyLower (pyStrip text)).data.drop ("movie:".data.length)))

/- ### Helper lemmas -/

theorem string_eq_of_data (s t : String) (h : s.data = t.data) : s = t := by
  cases s; cases t; exact congrArg String.mk h

theorem string_append_assoc (a b c : String) : a ++ b ++ c = a ++ (b ++ c) :=
  string_eq_of_data _ _ (by simp [String.data_append, List.append_assoc])

theorem char_toNat_ofNat_of_le (n : Nat) (h1 : 97 ≤ n) (h2 : n ≤ 122) :
    (Char.ofNat n).toNat = n := by
  have hv : n.isValidChar := Or.inl (by omega)
  rw [Char.ofNat, dif_pos hv]
  rfl

theorem pyCharLower_idem (c : Char) : pyCharLower (pyCharLower c) = pyCharLower c := by
  by_cases h : 65 ≤ c.toNat ∧ c.toNat ≤ 90
  · have h1 : (Char.ofNat (c.toNat + 32)).toNat = c.toNat + 32 :=
      char_toNat_ofNat_of_le _ (by omega) (by omega)
    have hc : pyCharLower c = Char.ofNat (c.toNat + 32) := by
      unfold pyCharLower; rw [if_pos h]
    rw [hc]
    unfold pyCharLower
    rw [if_neg (by rw [h1]; omega)]
  · have hc : pyCharLower c = c := by
      unfold pyCharLower; rw [if_neg h]
    rw [hc, hc]

theorem mem_pyLower_lower (s : String) (c : Char) (h : c ∈ (pyLower s).data) :
    pyCharLower c = c := by
  obtain ⟨a, _, rfl⟩ := List.mem_map.1 h
  exact pyCharLower_idem a

theorem map_eq_self_of_forall {α : Type} (f : α → α) (l : List α)
    (h : ∀ a ∈ l, f a = a) : l.map f = l := by
  induction l with
  | nil => rfl
  | cons a l ih =>
    simp only [List.map_cons, h a (by simp)]
    rw [ih (fun b hb => h b (by simp [hb]))]

theorem pyLower_eq_self (s : String) (h : ∀ c ∈ s.data, pyCharLower c = c) :
    pyLower s = s :=
  string_eq_of_data _ _ (map_eq_self_of_forall _ s.data h)

theorem mem_of_mem_pyStrip (s : String) (c : Char) (h : c ∈ (pyStrip s).data) :
    c ∈ s.data := by
  have h1 : c ∈ (s.data.dropWhile pyIsSpace).reverse.dropWhile pyIsSpace :=
    List.mem_reverse.1 h
  have h2 : c ∈ (s.data.dropWhile pyIsSpace).reverse :=
    (List.dropWhile_sublist pyIsSpace).mem h1
  exact (List.dropWhile_sublist pyIsSpace).mem (List.mem_reverse.1 h2)

theorem mem_of_mem_pyRemoveAllAux (pat : List Char) :
    ∀ (fuel : Nat) (l : List Char) (c : Char),
      c ∈ pyRemoveAllAux pat fuel l → c ∈ l := by
  intro fuel
  induction fuel with
  | zero =>
    intro l c h
    cases l with
    | nil => simp [pyRemoveAllAux] at h
    | cons a rest => simpa [pyRemoveAllAux] using h
  | succ n ih =>
    intro l c h
    cases l with
    | nil => simp [pyRemoveAllAux] at h
    | cons a rest =>
      rw [pyRemoveAllAux] at h
      split_ifs at h with hcond
      · exact List.mem_cons_of_mem a (List.mem_of_mem_drop (ih _ c h))
      · rcases List.mem_cons.1 h with h1 | h1
        · exact h1 ▸ List.mem_cons_self a rest
        · exact List.mem_cons_of_mem a (ih rest c h1)

theorem mem_of_mem_pyRemoveAll (pat s : String) (c : Char)
    (h : c ∈ (pyRemoveAll pat s).data) : c ∈ s.data :=
  mem_of_mem_pyRemoveAllAux pat.data s.data.length s.data c h

theorem refined_title_lower_invariant (text : String) :
    pyLower (pyStrip (pyRemoveAll "movie:" (pyLower (pyStrip text)))) =
      pyStrip (pyRemoveAll "movie:" (pyLower (pyStrip text))) := by
  apply pyLower_eq_self
  intro c hc
  exact mem_pyLower_lower _ _
    (mem_of_mem_pyRemoveAll _ _ _ (mem_of_mem_pyStrip _ _ hc))

/- ### Claim theorems -/

/-- C7: for every query whose classification reply (stripped, lowercased)
does not start with the `movie:` marker, `process_user_query` classifies it
as General and returns the original query text verbatim as the refined
text, never the echoed service text. -/
theorem c7_general_keeps_original_query (text query : String)
    (h : pyStartsWith "movie:" (pyLower (pyStrip text)) = false) :
    process_user_query (.ok text) query = (QueryKind.general, query) := by
  simp [process_user_query, h]

theorem c7_witness :
    pyStartsWith "movie:" (pyLower (pyStrip "What is film noir?")) = false ∧
    process_user_query (.ok "What is film noir?") "what is film noir"
      = (QueryKind.general, "what is film noir") :=
  ⟨by decide, c7_general_keeps_original_query "What is film noir?" "what is film noir" (by decide)⟩

/-- C8: for every query, when the generative-text service raises during
classification, `process_user_query` returns kind Movie with the original
query as refined text; the returned value is total, so no error reaches
the caller. -/
theorem c8_classification_failure_degrades_to_movie (query : String) :
    process_user_query (.error ()) query = (QueryKind.movie, query) := rfl

/-- C9: every catalog search yields either the first element of the
service result array (when it is non-empty) or NotFound (`none`); an empty
result set and a transport/HTTP error both yield `none`, and the two cases
produce identical results, so the caller cannot distinguish them. -/
theorem c9_search_first_result_or_notfound
    (svcResp : Except Unit (List MovieSummary)) :
    (∀ r rest, svcResp = .ok (r :: rest) → search_movie svcResp = some r) ∧
    (svcResp = .ok [] → search_movie svcResp = none) ∧
    (∀ e, svcResp = .error e → search_movie svcResp = none) ∧
    search_movie (.ok []) = search_movie (.error ()) := by
  refine ⟨?_, ?_, ?_, rfl⟩
  · rintro r rest rfl; rfl
  · rintro rfl; rfl
  · rintro e rfl; rfl

theorem c9_witness :
    search_movie (.ok [⟨27205, "Inception", some "2010-07-16"⟩])
      = some ⟨27205, "Inception", some "2010-07-16"⟩ ∧
    search_movie (.ok ([] : List MovieSummary)) = none ∧
    search_movie (.error ()) = none :=
  ⟨(c9_search_first_result_or_notfound _).1 ⟨27205, "Inception", some "2010-07-16"⟩ [] rfl,
   (c9_search_first_result_or_notfound (.ok [])).2.1 rfl,
   (c9_search_first_result_or_notfound (.error ())).2.2.1 () rfl⟩

/-- C1 counterexample: the claim that the general path receives the
original raw query after a NotFound search fails on the code.  With a
classification reply `movie: Inception` for the query
`tell me about the movie Inception` and an empty catalog result set, the
orchestrator hands the general path the refined title `inception`, which
differs from the original query. -/
theorem c1_counterexample :
    handle_query
        ⟨.ok "movie: Inception", .ok [], .error (), fun _ => .error ()⟩
        "tell me about the movie Inception"
      = Outcome.generalAnswer "inception" ∧
    "inception" ≠ "tell me about the movie Inception" := by
  constructor
  · decide
  · decide

/-- C1 amended: for every query whose catalog search returns NotFound, the
orchestrator re-routes to the general-question path, and the general-path
synthesis receives the refined query produced by classification (the same
string that was handed to the catalog search), which equals the original
raw query only when the two coincide. -/
theorem c1_amended_notfound_reroutes_with_refined_query (env : Env)
    (query refined : String)
    (hclass : process_user_query env.classifyResp query = (QueryKind.movie, refined))
    (hsearch : search_movie env.searchResp = none) :
    handle_query env query = Outcome.generalAnswer refined := by
  simp [handle_query, hclass, search_movie_flow, hsearch]

theorem c1_witness :
    process_user_query (.ok "movie: Up") "that balloon house film"
      = (QueryKind.movie, "up") ∧
    handle_query ⟨.ok "movie: Up", .ok [], .error (), fun _ => .error ()⟩
        "that balloon house film"
      = Outcome.generalAnswer "up" :=
  ⟨by decide,
   c1_amended_notfound_reroutes_with_refined_query
     ⟨.ok "movie: Up", .ok [], .error (), fun _ => .error ()⟩
     "that balloon house film" "up" (by decide) (by decide)⟩

/-- C2: for every query whose catalog search succeeds but whose detail
fetch fails, the orchestrator stops with the terminal detail-fetch
failure outcome; neither the movie synthesis nor the general synthesis is
invoked. -/
theorem c2_detail_fetch_failure_is_terminal (env : Env) (query refined : String)
    (m : MovieSummary) (rest : List MovieSummary)
    (hclass : process_user_query env.classifyResp query = (QueryKind.movie, refined))
    (hsearch : env.searchResp = .ok (m :: rest))
    (hdetails : env.detailsResp = .error ()) :
    handle_query env query = Outcome.detailFetchFailure m.title ∧
    (∀ s, handle_query env query ≠ Outcome.generalAnswer s) ∧
    (∀ d t, handle_query env query ≠ Outcome.movieAnswer d t) := by
  have h1 : handle_query env query = Outcome.detailFetchFailure m.title := by
    simp [handle_query, hclass, search_movie_flow, search_movie, hsearch,
      get_movie_details, hdetails]
  exact ⟨h1, fun s h => by rw [h1] at h; exact Outcome.noConfusion h,
    fun d t h => by rw [h1] at h; exact Outcome.noConfusion h⟩

theorem c2_witness :
    handle_query
        ⟨.error (), .ok [⟨27205, "Inception", some "2010-07-16"⟩], .error (),
          fun _ => .error ()⟩ "inception"
      = Outcome.detailFetchFailure "Inception" :=
  (c2_detail_fetch_failure_is_terminal
    ⟨.error (), .ok [⟨27205, "Inception", some "2010-07-16"⟩], .error (),
      fun _ => .error ()⟩ "inception" "inception"
    ⟨27205, "Inception", some "2010-07-16"⟩ [] (by decide) rfl rfl).1

/-- C10 counterexample: the claim that the refined Movie title is the
stripped, lowercased trailing text after the marker fails on the code.
For the reply `movie: Movie: Impossible` the code removes every occurrence
of `movie:` (Python `str.replace` replaces all occurrences), returning
`impossible`, while the trailing text after the leading marker is
`movie: impossible`. -/
theorem c10_counterexample :
    (process_user_query (.ok "movie: Movie: Impossible") "q").2 = "impossible" ∧
    spec_refined_title "movie: Movie: Impossible" = "movie: impossible" ∧
    ("impossible" : String) ≠ "movie: impossible" := by
  refine ⟨by decide, by decide, by decide⟩

/-- C10 amended: for every query classified as Movie from a successful
service reply, the refined title is the whitespace-stripped result of
deleting every occurrence of `movie:` from the stripped, fully lowercased
reply (this equals the trailing text whenever the marker occurs exactly
once), and in particular the refined title is never mixed-case: it is a
fixed point of lowercasing. -/
theorem c10_amended_refined_title_lowercased (text query : String)
    (h : pyStartsWith "movie:" (pyLower (pyStrip text)) = true) :
    process_user_query (.ok text) query
      = (QueryKind.movie, pyStrip (pyRemoveAll "movie:" (pyLower (pyStrip text)))) ∧
    pyLower (process_user_query (.ok text) query).2
      = (process_user_query (.ok text) query).2 := by
  have h1 : process_user_query (.ok text) query
      = (QueryKind.movie, pyStrip (pyRemoveAll "movie:" (pyLower (pyStrip text)))) := by
    simp [process_user_query, h]
  exact ⟨h1, by rw [h1]; exact refined_title_lower_invariant text⟩

theorem c10_witness :
    pyStartsWith "movie:" (pyLower (pyStrip "Movie: The DARK Knight")) = true ∧
    pyLower (process_user_query (.ok "Movie: The DARK Knight") "q").2
      = (process_user_query (.ok "Movie: The DARK Knight") "q").2 ∧
    (process_user_query (.ok "Movie: The DARK Knight") "q").2 = "the dark knight" :=
  ⟨by decide,
   (c10_amended_refined_title_lowercased "Movie: The DARK Knight" "q" (by decide)).2,
   by decide⟩

/-- Scan of the video list as a `find?`: `firstYouTubeTrailer` returns the
record built from the first entry satisfying the YouTube-and-Trailer test. -/
theorem firstYouTubeTrailer_eq_find (title : String) (l : List Video) :
    firstYouTubeTrailer title l =
      (l.find? (fun v => v.site == "YouTube" && v.type == "Trailer")).map
        (fun v => ⟨title ++ " Official Trailer",
                   "https://www.youtube.com/watch?v=" ++ v.key, v.key⟩) := by
  induction l with
  | nil => rfl
  | cons v rest ih =>
    by_cases h : (v.site == "YouTube" && v.type == "Trailer") = true
    · simp [firstYouTubeTrailer, List.find?_cons, h]
    · simp [firstYouTubeTrailer, List.find?_cons, h, ih]

theorem head?_filterMap {α β : Type} (f : α → Option β) (l : List α) :
    (l.filterMap f).head? = l.findSome? f := by
  induction l with
  | nil => rfl
  | cons a l ih =>
    simp only [List.filterMap_cons, List.findSome?]
    cases f a <;> simp [ih]

/-- Soundness of the embedded regex search: a successful match returns a
non-empty capture of non-`&` characters that appears in the input right
after an occurrence of the literal `youtube.com/watch?v=`. -/
theorem watchIdSearch_spec :
    ∀ (l vid : List Char), watchIdSearch l = some vid →
      vid ≠ [] ∧ (∀ c ∈ vid, ¬(c = '&')) ∧
      ∃ a b, l = a ++ "youtube.com/watch?v=".data ++ vid ++ b := by
  intro l
  induction l with
  | nil => intro vid h; simp [watchIdSearch] at h
  | cons c rest ih =>
    intro vid h
    rw [watchIdSearch] at h
    split_ifs at h with hp he
    · obtain ⟨hne, hamp, a, b, hab⟩ := ih vid h
      exact ⟨hne, hamp, c :: a, b, by simp [hab]⟩
    · have hv : ((c :: rest).drop "youtube.com/watch?v=".data.length).takeWhile
          (fun a => !(a == '&')) = vid := Option.some.inj h
      obtain ⟨t, ht⟩ := List.isPrefixOf_iff_prefix.1 hp
      have hdrop : (c :: rest).drop "youtube.com/watch?v=".data.length = t := by
        rw [← ht, List.drop_left]
      rw [hdrop] at hv he
      refine ⟨by rw [← hv]; exact he, ?_, [], t.dropWhile (fun a => !(a == '&')), ?_⟩
      · intro ch hch
        have := List.mem_takeWhile_imp (hv ▸ hch)
        simpa using this
      · rw [List.nil_append, ← ht, ← hv]
        rw [List.append_assoc]
        congr 1
        exact (List.takeWhile_append_dropWhile _ _).symm
    · obtain ⟨hne, hamp, a, b, hab⟩ := ih vid h
      exact ⟨hne, hamp, c :: a, b, by simp [hab]⟩

/-- C5: whenever the detail record's video list contains a YouTube entry of
type Trailer, `find_trailer` returns the record built from the first such
entry — titled `<title> Official Trailer`, with the URL built from its
key — and the result does not depend on the web-search fallback at all. -/
theorem c5_metadata_tier_first_match_wins (title : String) (year : Option String)
    (md : MovieData) (vs : Videos) (v : Video)
    (hvs : md.videos = some vs)
    (hfind : vs.results.find? (fun w => w.site == "YouTube" && w.type == "Trailer")
      = some v)
    (w₁ w₂ : String → Except Unit (List String)) :
    find_trailer title year (some md) w₁ =
      some ⟨title ++ " Official Trailer",
            "https://www.youtube.com/watch?v=" ++ v.key, v.key⟩ ∧
    find_trailer title year (some md) w₁ = find_trailer title year (some md) w₂ := by
  have hne : vs.results.isEmpty = false := by
    cases hr : vs.results with
    | nil => rw [hr] at hfind; simp at hfind
    | cons a l => rfl
  have hmeta : metadata_tier title (some md)
      = some ⟨title ++ " Official Trailer",
              "https://www.youtube.com/watch?v=" ++ v.key, v.key⟩ := by
    simp [metadata_tier, hvs, hne, firstYouTubeTrailer_eq_find, hfind]
  exact ⟨by simp [find_trailer, hmeta], by simp [find_trailer, hmeta]⟩

theorem c5_witness :
    find_trailer "Inception" (some "2010")
        (some ⟨some "Inception", none, none, none, none, none, none, none, none,
          some ⟨[⟨"YouTube", "Featurette", "f1"⟩, ⟨"YouTube", "Trailer", "dQ"⟩,
                 ⟨"YouTube", "Trailer", "zz"⟩]⟩, none⟩)
        (fun _ => .error ())
      = some ⟨"Inception" ++ " Official Trailer",
              "https://www.youtube.com/watch?v=" ++ "dQ", "dQ"⟩ ∧
    find_trailer "Inception" (some "2010")
        (some ⟨some "Inception", none, none, none, none, none, none, none, none,
          some ⟨[⟨"YouTube", "Featurette", "f1"⟩, ⟨"YouTube", "Trailer", "dQ"⟩,
                 ⟨"YouTube", "Trailer", "zz"⟩]⟩, none⟩)
        (fun _ => .error ())
      = find_trailer "Inception" (some "2010")
          (some ⟨some "Inception", none, none, none, none, none, none, none, none,
            some ⟨[⟨"YouTube", "Featurette", "f1"⟩, ⟨"YouTube", "Trailer", "dQ"⟩,
                   ⟨"YouTube", "Trailer", "zz"⟩]⟩, none⟩)
          (fun _ => .ok ["https://www.youtube.com/watch?v=web1"]) :=
  c5_metadata_tier_first_match_wins "Inception" (some "2010")
    ⟨some "Inception", none, none, none, none, none, none, none, none,
      some ⟨[⟨"YouTube", "Featurette", "f1"⟩, ⟨"YouTube", "Trailer", "dQ"⟩,
             ⟨"YouTube", "Trailer", "zz"⟩]⟩, none⟩
    ⟨[⟨"YouTube", "Featurette", "f1"⟩, ⟨"YouTube", "Trailer", "dQ"⟩,
      ⟨"YouTube", "Trailer", "zz"⟩]⟩
    ⟨"YouTube", "Trailer", "dQ"⟩ rfl (by decide) _ _

/-- C6: when the metadata tier yields nothing, the fallback tier searches
for `<title> official trailer` with the year appended when present; on a
search error it returns `none`; on a search result it returns the first
link candidate, where a candidate is exactly an href in which the pattern
`youtube.com/watch?v=<id>` occurs with a non-empty `&`-free id, titled
`<title> Trailer` with the URL rebuilt from the extracted id. -/
theorem c6_fallback_tier_pattern_validated (title : String) (year : Option String)
    (md : Option MovieData) (w : String → Except Unit (List String))
    (hmeta : metadata_tier title md = none) :
    (∀ y, trailer_search_query title (some y) = title ++ " official trailer " ++ y) ∧
    (trailer_search_query title none = title ++ " official trailer") ∧
    (w (trailer_search_query title year) = .error () →
      find_trailer title year md w = none) ∧
    (∀ hrefs, w (trailer_search_query title year) = .ok hrefs →
      find_trailer title year md w = hrefs.findSome? (watch_link_candidate title)) ∧
    (∀ href t, watch_link_candidate title href = some t →
      t.title = title ++ " Trailer" ∧
      t.url = "https://www.youtube.com/watch?v=" ++ t.video_id ∧
      t.video_id ≠ "" ∧ (∀ c ∈ t.video_id.data, ¬(c = '&')) ∧
      ∃ a b, href.data = a ++ "youtube.com/watch?v=".data ++ t.video_id.data ++ b) := by
  refine ⟨?_, rfl, ?_, ?_, ?_⟩
  · intro y
    show title ++ " official trailer" ++ " " ++ y = title ++ " official trailer " ++ y
    rw [string_append_assoc title " official trailer" " ",
      show (" official trailer" ++ " " : String) = " official trailer " from rfl]
  · intro hw
    simp [find_trailer, hmeta, hw]
  · intro hrefs hw
    simp [find_trailer, hmeta, hw, head?_filterMap]
  · intro href t h
    rw [watch_link_candidate] at h
    split_ifs at h with hsub
    · cases hw : watchIdSearch href.data with
      | none => rw [hw] at h; exact Option.noConfusion h
      | some vid =>
        rw [hw] at h
        obtain rfl := Option.some.inj h
        obtain ⟨hne, hamp, a, b, hdecomp⟩ := watchIdSearch_spec href.data vid hw
        refine ⟨rfl, rfl, ?_, hamp, a, b, hdecomp⟩
        intro hcon
        exact hne (congrArg String.data hcon)

theorem c6_witness :
    find_trailer "Alien" (some "1979") none
        (fun q =>
          if q = "Alien official trailer 1979" then
            .ok ["https://duckduckgo.com/about",
                 "https://www.youtube.com/watch?v=&bad",
                 "https://www.youtube.com/watch?v=jQ5l&t=1"]
          else .error ())
      = ["https://duckduckgo.com/about",
         "https://www.youtube.com/watch?v=&bad",
         "https://www.youtube.com/watch?v=jQ5l&t=1"].findSome?
          (watch_link_candidate "Alien") ∧
    ["https://duckduckgo.com/about",
     "https://www.youtube.com/watch?v=&bad",
     "https://www.youtube.com/watch?v=jQ5l&t=1"].findSome?
        (watch_link_candidate "Alien")
      = some ⟨"Alien Trailer", "https://www.youtube.com/watch?v=jQ5l", "jQ5l"⟩ :=
  ⟨(c6_fallback_tier_pattern_validated "Alien" (some "1979") none
      (fun q =>
        if q = "Alien official trailer 1979" then
          .ok ["https://duckduckgo.com/about",
               "https://www.youtube.com/watch?v=&bad",
               "https://www.youtube.com/watch?v=jQ5l&t=1"]
        else .error ()) rfl).2.2.2.1
      ["https://duckduckgo.com/about",
       "https://www.youtube.com/watch?v=&bad",
       "https://www.youtube.com/watch?v=jQ5l&t=1"] rfl,
   by decide⟩

set_option maxRecDepth 4000 in
/-- Character-level layout of the movie-path fallback template: the title
appears right after the leading newline and indentation. -/
theorem create_fallback_data (c : ResponseContext) :
    (create_fallback_response c).data
      = "\n        ".data ++ c.title.data ++ (" (" ++ pyTake 4 c.release_date ++
        ")\n\n        Rating: " ++ c.vote_average ++ "/10  \n        Runtime: " ++
        c.runtime ++ " minutes  \n        Genres: " ++
        String.intercalate ", " c.genres ++ "\n\n        Overview:\n        " ++
        c.overview ++ "\n\n        Cast & Crew:\n        Director: " ++
        c.director ++ "  \n        Starring: " ++
        String.intercalate ", " (c.cast.take 5) ++
        "\n\n        Watch Trailer:\n        " ++ c.trailer ++
        "\n\n        Budget: $" ++ pyThousands c.budget ++
        "  \n        Box Office: $" ++ pyThousands c.revenue ++ "\n        ").data := by
  simp [create_fallback_response, String.data_append, List.append_assoc]

theorem create_fallback_contains_title (c : ResponseContext) :
    ∃ a b, (create_fallback_response c).data = a ++ c.title.data ++ b :=
  ⟨"\n        ".data, _, create_fallback_data c⟩

theorem create_fallback_ne_empty (c : ResponseContext) :
    create_fallback_response c ≠ "" := by
  intro h
  have h2 : (create_fallback_response c).data = [] := congrArg String.data h
  rw [create_fallback_data] at h2
  rcases List.append_eq_nil.1 h2 with ⟨h3, -⟩
  rcases List.append_eq_nil.1 h3 with ⟨h4, -⟩
  exact absurd h4 (by decide)

/-- Character-level layout of the general-path fallback: the original
query appears between the apology text and the closing sentence. -/
theorem general_fallback_data (q : String) :
    (general_fallback q).data
      = "I\x27m sorry, I couldn\x27t process your query: \x27".data ++ q.data ++
        "\x27. Please try asking in a different way.".data := by
  simp [general_fallback, String.data_append, List.append_assoc]

theorem general_fallback_ne_empty (q : String) : general_fallback q ≠ "" := by
  intro h
  have h2 : (general_fallback q).data = [] := congrArg String.data h
  rw [general_fallback_data] at h2
  rcases List.append_eq_nil.1 h2 with ⟨h3, -⟩
  rcases List.append_eq_nil.1 h3 with ⟨h4, -⟩
  exact absurd h4 (by decide)

/-- C3: for every synthesis call on which the generative-text service
fails, the returned fallback text is non-empty, deterministic (the same in
streaming and single-shot mode), contains the movie title (movie path) or
the original query (general path), and — when streaming was requested —
is itself delivered through the callback as one whole fragment (the last
callback invocation carries exactly the returned text). -/
theorem c3_synthesis_failure_fallback (svc : GenService) (md : MovieData)
    (tr : Option TrailerInfo) (t q : String)
    (ht : md.title = some t)
    (hfail : svc.streamFails = true) (hsingle : svc.single = .error ()) :
    ((generate_movie_response svc md tr true true).1 ≠ "" ∧
     (∃ a b, (generate_movie_response svc md tr true true).1.data
        = a ++ t.data ++ b) ∧
     (generate_movie_response svc md tr true true).2.getLast?
        = some (generate_movie_response svc md tr true true).1) ∧
    ((generate_movie_response svc md tr false false).1
      = (generate_movie_response svc md tr true true).1) ∧
    ((generate_general_response svc q true true).1 ≠ "" ∧
     (∃ a b, (generate_general_response svc q true true).1.data
        = a ++ q.data ++ b) ∧
     (generate_general_response svc q true true).2.getLast?
        = some (generate_general_response svc q true true).1) ∧
    ((generate_general_response svc q false false).1
      = (generate_general_response svc q true true).1) := by
  have hm1 : generate_movie_response svc md tr true true
      = (create_fallback_response (build_context md tr),
         svc.streamChunks ++ [create_fallback_response (build_context md tr)]) := by
    simp [generate_movie_response, hfail]
  have hg1 : generate_general_response svc q true true
      = (general_fallback q, svc.streamChunks ++ [general_fallback q]) := by
    simp [generate_general_response, hfail]
  have htitle : (build_context md tr).title = t := by simp [build_context, ht]
  refine ⟨⟨?_, ?_, ?_⟩, ?_, ⟨?_, ?_, ?_⟩, ?_⟩
  · rw [hm1]; exact create_fallback_ne_empty _
  · rw [hm1]
    obtain ⟨a, b, hab⟩ := create_fallback_contains_title (build_context md tr)
    rw [htitle] at hab
    exact ⟨a, b, hab⟩
  · rw [hm1]; exact List.getLast?_concat _
  · rw [hm1]; simp [generate_movie_response, hsingle]
  · rw [hg1]; exact general_fallback_ne_empty q
  · rw [hg1]; exact ⟨_, _, general_fallback_data q⟩
  · rw [hg1]; exact List.getLast?_concat _
  · rw [hg1]; simp [generate_general_response, hsingle]

theorem c3_witness :
    (⟨some "Inception", none, none, none, none, none, none, none, none, none,
        none⟩ : MovieData).title = some "Inception" ∧
    (generate_movie_response ⟨["partial "], true, .error ()⟩
        ⟨some "Inception", none, none, none, none, none, none, none, none, none,
          none⟩ none true true).1 ≠ "" ∧
    (generate_general_response ⟨["partial "], true, .error ()⟩
        "why do we like cinema" true true).2.getLast?
      = some (generate_general_response ⟨["partial "], true, .error ()⟩
          "why do we like cinema" true true).1 :=
  ⟨rfl,
   (c3_synthesis_failure_fallback ⟨["partial "], true, .error ()⟩
      ⟨some "Inception", none, none, none, none, none, none, none, none, none,
        none⟩ none "Inception" "why do we like cinema" rfl rfl rfl).1.1,
   (c3_synthesis_failure_fallback ⟨["partial "], true, .error ()⟩
      ⟨some "Inception", none, none, none, none, none, none, none, none, none,
        none⟩ none "Inception" "why do we like cinema" rfl rfl rfl).2.2.1.2.2⟩

/-- C4: for every successful streaming synthesis call (movie or general
path), the fragments passed to the callback are exactly the service's
chunks in invocation order, the returned string is their concatenation
(no loss, duplication or reordering), and a single-shot call against an
equivalent service response — one whose full text equals that
concatenation — returns the same final text. -/
theorem c4_streaming_matches_single_shot (svc svc₂ : GenService)
    (md : MovieData) (tr : Option TrailerInfo) (q : String)
    (hok : svc.streamFails = false)
    (heq : svc₂.single = .ok (String.join svc.streamChunks)) :
    ((generate_movie_response svc md tr true true).2 = svc.streamChunks ∧
     (generate_movie_response svc md tr true true).1
        = String.join (generate_movie_response svc md tr true true).2 ∧
     (generate_movie_response svc₂ md tr false false).1
        = (generate_movie_response svc md tr true true).1) ∧
    ((generate_general_response svc q true true).2 = svc.streamChunks ∧
     (generate_general_response svc q true true).1
        = String.join (generate_general_response svc q true true).2 ∧
     (generate_general_response svc₂ q false false).1
        = (generate_general_response svc q true true).1) := by
  refine ⟨⟨?_, ?_, ?_⟩, ⟨?_, ?_, ?_⟩⟩ <;>
    simp [generate_movie_response, generate_general_response, hok, heq]

theorem c4_witness :
    (generate_movie_response ⟨["Hello ", "world"], false, .error ()⟩
        ⟨none, none, none, none, none, none, none, none, none, none, none⟩
        none true true).2
      = ["Hello ", "world"] ∧
    (generate_movie_response ⟨[], false, .ok "Hello world"⟩
        ⟨none, none, none, none, none, none, none, none, none, none, none⟩
        none false false).1
      = (generate_movie_response ⟨["Hello ", "world"], false, .error ()⟩
          ⟨none, none, none, none, none, none, none, none, none, none, none⟩
          none true true).1 :=
  ⟨(c4_streaming_matches_single_shot ⟨["Hello ", "world"], false, .error ()⟩
      ⟨[], false, .ok "Hello world"⟩
      ⟨none, none, none, none, none, none, none, none, none, none, none⟩
      none "q" rfl rfl).1.1,
   (c4_streaming_matches_single_shot ⟨["Hello ", "world"], false, .error ()⟩
      ⟨[], false, .ok "Hello world"⟩
      ⟨none, none, none, none, none, none, none, none, none, none, none⟩
      none "q" rfl rfl).1.2.2⟩
